import Mathlib

/-!
Verification of the smart-factory predictive-maintenance pipeline.

Shallow embedding of the four message-handling services
(`context_processor.py`, `predictive_maintenance_agent.py`,
`action_executor.py`, `performance_monitor.py`).

Modelling conventions:
* timestamps are epoch seconds (`Int`); `datetime.now()` becomes an
  explicit `now` argument; `timedelta(minutes=m)` becomes `60 * m` seconds;
* sensor values are exact rationals (`Rat`); Python float `round(x, 2)`
  is modelled as exact round-half-to-even at two decimals;
* Python dicts keyed by strings are association lists that keep insertion
  order and overwrite in place, as CPython dicts do;
* `jsonschema.validate` reads schema documents that are not part of the
  source tree, so each validation gate is an abstract boolean predicate
  passed as a parameter;
* operations that can raise (`/` on an empty window, `max([])`, an unbound
  name) are modelled in `Except PyErr`; the service-level `try/except`
  blocks catch every such error.
-/

namespace SmartFactory

/-- Run-time errors of the Python fragments that the services guard against. -/
inductive PyErr where
  | zeroDivision
  | valueEmptyMax
  | nameError
  deriving DecidableEq, Repr

/-- Python truthiness of an optional string: `None` and the empty string are
falsy (`if not machine_id: return` treats both as missing). -/
def pyTruthy : Option String → Bool
  | none => false
  | some s => !(s == "")

/-- CPython dict update on an insertion-ordered association list: an existing
key keeps its position and gets the new value, a fresh key is appended. -/
def dictSet {β : Type} (d : List (String × β)) (k : String) (v : β) :
    List (String × β) :=
  if d.any (fun e => e.1 == k) then
    d.map (fun e => if e.1 == k then (k, v) else e)
  else d ++ [(k, v)]

end SmartFactory

namespace ContextProcessor

open SmartFactory

/-- One decoded raw sensor sample, the fields read by
`context_processor.process_raw_data`. -/
structure Reading where
  machine_id : String
  timestamp : Int
  temperature_c : Rat
  vibration_g : Rat
  power_kw : Rat
  status : String
  deriving DecidableEq, Repr

/-- Append on a `collections.deque` with `maxlen = cap`: the new element goes
to the right end and, if the deque was full, the leftmost (oldest) element is
discarded (`DATA_BUFFERS[machine_id].append(data)`). -/
def dequeAppend (cap : Nat) (buf : List Reading) (r : Reading) : List Reading :=
  if cap < (buf ++ [r]).length then
    (buf ++ [r]).drop ((buf ++ [r]).length - cap)
  else buf ++ [r]

/-- Buffer capacity: `deque(maxlen=300)`. -/
def DEQUE_MAXLEN : Nat := 300

/-- The list comprehension
`[d for d in buf if datetime.fromisoformat(d['timestamp']) > current_time - timedelta(...)]`:
keep the readings whose timestamp is strictly newer than `now - durSeconds`. -/
def windowFilter (buf : List Reading) (now : Int) (durSeconds : Int) :
    List Reading :=
  buf.filter (fun d => now - durSeconds < d.timestamp)

/-- Python `sum` over a list of rationals. -/
def listSum (l : List Rat) : Rat := l.foldl (fun a b => a + b) 0

/-- Value of `sum(l) / len(l) if l else 0` on the non-error path. -/
def listAvg (l : List Rat) : Rat :=
  if l.isEmpty then 0 else listSum l / (l.length : Rat)

/-- Value of `max(l) if l else 0` on the non-error path. -/
def listMax : List Rat → Rat
  | [] => 0
  | x :: xs => xs.foldl (fun a b => max a b) x

/-- Python division, which raises `ZeroDivisionError` on a zero denominator. -/
def pyDivide (a b : Rat) : Except PyErr Rat :=
  if b = 0 then Except.error PyErr.zeroDivision else Except.ok (a / b)

/-- Python `max`, which raises `ValueError` on an empty sequence. -/
def pyMaxList : List Rat → Except PyErr Rat
  | [] => Except.error PyErr.valueEmptyMax
  | x :: xs => Except.ok (xs.foldl (fun a b => max a b) x)

/-- The guarded average `sum(l) / len(l) if l else 0` with the division
modelled as the raising Python operation. -/
def avgOrZero (l : List Rat) : Except PyErr Rat :=
  if l.isEmpty then Except.ok 0 else pyDivide (listSum l) (l.length : Rat)

/-- The guarded maximum `max(l) if l else 0` with `max` modelled as the
raising Python operation. -/
def maxOrZero (l : List Rat) : Except PyErr Rat :=
  if l.isEmpty then Except.ok 0 else pyMaxList l

/-- Exact round-half-to-even to an integer, the rounding Python `round` uses. -/
def roundHalfEven (q : Rat) : Int :=
  let f : Int := ⌊q⌋
  let frac : Rat := q - (f : Rat)
  if frac < 1 / 2 then f
  else if 1 / 2 < frac then f + 1
  else if f % 2 = 0 then f else f + 1

/-- Python `round(q, 2)` on exact rationals. -/
def round2 (q : Rat) : Rat := (roundHalfEven (q * 100) : Rat) / 100

/-- Payload of the generated context message (`context_payload` dict). -/
structure ContextPayload where
  machine_id : String
  current_status : String
  avg_temperature_c_5min : Rat
  max_vibration_g_1min : Rat
  power_consumption_avg_10min : Rat
  is_anomaly_detected : Bool
  deriving DecidableEq, Repr

/-- The generated context message (`context_message` dict); `metadata` is
flattened into the two fields it holds.  The fresh `uuid.uuid4()` is opaque
to every property proved here and is modelled by a placeholder string. -/
structure ContextMessage where
  context_id : String
  timestamp : Int
  source_agent_id : String
  context_type : String
  schema_version : String
  payload : ContextPayload
  priority : String
  ttl_seconds : Int
  deriving DecidableEq, Repr

/-- Supported context schema version (`CONTEXT_SCHEMA_VERSION`). -/
def CONTEXT_SCHEMA_VERSION : String := "1.0.0"

/-- The per-machine buffer map `DATA_BUFFERS`. -/
abbrev Buffers := List (String × List Reading)

/-- Shallow embedding of `process_raw_data(machine_id, data)`:
create the per-machine deque on first sight, append the reading, filter the
5/1/10-minute windows at `current_time = now`, aggregate, detect the anomaly
on the unrounded aggregates, and build the context message whose payload
carries the aggregates rounded to two decimals. -/
def process_raw_data (buffers : Buffers) (machine_id : String) (data : Reading)
    (now : Int) : Buffers × ContextMessage :=
  let buf0 := (buffers.lookup machine_id).getD []
  let buf := dequeAppend DEQUE_MAXLEN buf0 data
  let buffers1 := dictSet buffers machine_id buf
  let data_5min := windowFilter buf now 300
  let data_1min := windowFilter buf now 60
  let data_10min := windowFilter buf now 600
  let avg_temperature_c_5min := listAvg (data_5min.map (fun d => d.temperature_c))
  let max_vibration_g_1min := listMax (data_1min.map (fun d => d.vibration_g))
  let power_consumption_avg_10min := listAvg (data_10min.map (fun d => d.power_kw))
  let is_anomaly_detected :=
    decide (70 < avg_temperature_c_5min) || decide (3 < max_vibration_g_1min)
  (buffers1,
    { context_id := "uuid4-placeholder"
      timestamp := now
      source_agent_id := "context_modeling_engine_001"
      context_type := "machine_status_context"
      schema_version := CONTEXT_SCHEMA_VERSION
      payload :=
        { machine_id := machine_id
          current_status := data.status
          avg_temperature_c_5min := round2 avg_temperature_c_5min
          max_vibration_g_1min := round2 max_vibration_g_1min
          power_consumption_avg_10min := round2 power_consumption_avg_10min
          is_anomaly_detected := is_anomaly_detected }
      priority := if is_anomaly_detected then "high" else "normal"
      ttl_seconds := 60 })

/-- One inbound MQTT message as `on_message` sees it: whether the payload
decodes as JSON, the value of `raw_data.get("machine_id")`, and the decoded
reading (meaningful only when `payload_decodes`). -/
structure RawMsg where
  payload_decodes : Bool
  machine_id : Option String
  reading : Reading
  deriving Repr

/-- Shallow embedding of `context_processor.on_message`:
JSON decode, identity check (`if not machine_id`), inbound raw-schema
validation, `process_raw_data`, outbound context-schema validation, publish.
Both schema gates are abstract predicates since the schema documents are not
part of the source tree.  Returns the new buffer map and the list of
published context messages. -/
def cp_on_message (validate_raw : Reading → Bool)
    (validate_ctx : ContextMessage → Bool) (buffers : Buffers) (msg : RawMsg)
    (now : Int) : Buffers × List ContextMessage :=
  if !msg.payload_decodes then (buffers, [])
  else if !(pyTruthy msg.machine_id) then (buffers, [])
  else if !(validate_raw msg.reading) then (buffers, [])
  else
    let machine_id := msg.machine_id.getD ""
    let res := process_raw_data buffers machine_id msg.reading now
    if !(validate_ctx res.2) then (res.1, [])
    else (res.1, [res.2])

/-- Buffer state reached by feeding a sequence of readings for one machine
through the append path of `process_raw_data`, starting from the lazily
created empty deque. -/
def buildBuffer (rs : List Reading) : List Reading :=
  rs.foldl (dequeAppend DEQUE_MAXLEN) []

/-- The buffer state right after the append step of `process_raw_data`. -/
def bufferAfterAppend (buffers : Buffers) (machine_id : String)
    (data : Reading) : List Reading :=
  dequeAppend DEQUE_MAXLEN ((buffers.lookup machine_id).getD []) data

/-- The unrounded 5-minute temperature average of `process_raw_data`. -/
def avg5Unrounded (buf : List Reading) (now : Int) : Rat :=
  listAvg ((windowFilter buf now 300).map (fun d => d.temperature_c))

/-- The unrounded 1-minute vibration maximum of `process_raw_data`. -/
def max1Unrounded (buf : List Reading) (now : Int) : Rat :=
  listMax ((windowFilter buf now 60).map (fun d => d.vibration_g))

/-- The unrounded 10-minute power average of `process_raw_data`. -/
def avg10Unrounded (buf : List Reading) (now : Int) : Rat :=
  listAvg ((windowFilter buf now 600).map (fun d => d.power_kw))

end ContextProcessor

namespace PredictiveMaintenanceAgent

open SmartFactory

/-- Supported context schema version
(`SUPPORTED_CONTEXT_SCHEMA_VERSION`). -/
def SUPPORTED_CONTEXT_SCHEMA_VERSION : String := "1.0.0"

/-- Decision schema version (`DECISION_SCHEMA_VERSION`). -/
def DECISION_SCHEMA_VERSION : String := "1.0.0"

/-- One inbound context message as `predictive_maintenance_agent.on_message`
reads it: `payload.get("machine_id")`, `get("schema_version")` (absent fields
decode to `none`) and the numeric feature payload fed to the model. -/
structure CtxMsgIn where
  machine_id : Option String
  schema_version : Option String
  features : ContextProcessor.ContextPayload
  deriving Repr

/-- The generated decision message (`decision_message` dict), with `metadata`
flattened and the echoed feature snapshot kept as the inbound payload. -/
structure DecisionMessage where
  decision_id : String
  timestamp : Int
  source_agent_id : String
  decision_type : String
  schema_version : String
  machine_id : String
  needs_maintenance : Bool
  prediction_confidence : Rat
  predicted_features : ContextProcessor.ContextPayload
  priority : String
  ttl_seconds : Int
  deriving Repr

/-- Shallow embedding of `predictive_maintenance_agent.on_message`:
identity check, inbound context-schema validation (abstract predicate),
exact string-equality version check, model prediction (abstract predictor
returning the boolean label and the max class probability), decision
construction, outbound decision-schema validation, publish.  The handler
mutates no per-message state, so its observable effect is the list of
published decisions. -/
def pm_on_message (validate_ctx : CtxMsgIn → Bool)
    (validate_dec : DecisionMessage → Bool)
    (predict : ContextProcessor.ContextPayload → Bool × Rat)
    (msg : CtxMsgIn) (now : Int) : List DecisionMessage :=
  if !(pyTruthy msg.machine_id) then []
  else if !(validate_ctx msg) then []
  else if !(msg.schema_version == some SUPPORTED_CONTEXT_SCHEMA_VERSION) then []
  else
    let needs_maintenance := (predict msg.features).1
    let decision : DecisionMessage :=
      { decision_id := "uuid4-placeholder"
        timestamp := now
        source_agent_id := "predictive_maintenance_agent_001"
        decision_type := "maintenance_decision"
        schema_version := DECISION_SCHEMA_VERSION
        machine_id := msg.machine_id.getD ""
        needs_maintenance := needs_maintenance
        prediction_confidence := (predict msg.features).2
        predicted_features := msg.features
        priority := if needs_maintenance then "high" else "normal"
        ttl_seconds := 30 }
    if !(validate_dec decision) then []
    else [decision]

end PredictiveMaintenanceAgent

namespace ActionExecutor

open SmartFactory

/-- Supported decision schema version
(`SUPPORTED_DECISION_SCHEMA_VERSION`). -/
def SUPPORTED_DECISION_SCHEMA_VERSION : String := "1.0.0"

/-- Log levels used by `action_executor.on_message`. -/
inductive LogLevel where
  | debug
  | info
  | warning
  | error
  | critical
  deriving DecidableEq, Repr

/-- One inbound decision message as `action_executor.on_message` reads it:
`get("decision_type")`, `get("payload", {}).get("machine_id")`,
`get("schema_version")` (absent fields decode to `none`), and the payload
fields indexed on the accepted path. -/
structure DecisionMsgIn where
  decision_type : Option String
  machine_id : Option String
  schema_version : Option String
  decision_id : String
  needs_maintenance : Bool
  deriving Repr

/-- Payload of the action confirmation (`confirmation_payload` dict). -/
structure ConfirmationPayload where
  machine_id : String
  decision_id : String
  action_taken : String
  status : String
  deriving DecidableEq, Repr

/-- The action confirmation message (`action_confirmation_message` dict),
with `metadata` flattened. -/
structure ConfirmationMessage where
  confirmation_id : String
  timestamp : Int
  source_agent_id : String
  confirmation_type : String
  schema_version : String
  payload : ConfirmationPayload
  priority : String
  ttl_seconds : Int
  deriving DecidableEq, Repr

/-- The confirmation built on the accepted `maintenance_decision` path:
`action_taken` is `"maintenance_initiated" if needs_maintenance else
"no_action_taken"` and `status` is always `"success"`. -/
def ae_confirmation (msg : DecisionMsgIn) (now : Int) : ConfirmationMessage :=
  { confirmation_id := "uuid4-placeholder"
    timestamp := now
    source_agent_id := "action_executor_001"
    confirmation_type := "action_confirmation"
    schema_version := "1.0.0"
    payload :=
      { machine_id := msg.machine_id.getD ""
        decision_id := msg.decision_id
        action_taken :=
          if msg.needs_maintenance then "maintenance_initiated"
          else "no_action_taken"
        status := "success" }
    priority := "normal"
    ttl_seconds := 30 }

/-- Observable outcome of one `action_executor.on_message` call: the
published confirmations, the emitted log events in order, and the simulated
actions triggered. -/
structure AEResult where
  confirmations : List ConfirmationMessage
  logs : List LogLevel
  actions : List String
  deriving Repr

/-- Shallow embedding of `action_executor.on_message`:
identity/type presence check, inbound decision-schema validation (the
failing validator logs its own warning before the caller logs a second one),
exact string-equality version check, dispatch on `decision_type` against the
single supported value, simulated action, confirmation construction,
outbound confirmation-schema validation, publish (with its info log). -/
def ae_on_message (validate_dec : DecisionMsgIn → Bool)
    (validate_conf : ConfirmationMessage → Bool) (msg : DecisionMsgIn)
    (now : Int) : AEResult :=
  if !(pyTruthy msg.machine_id) || !(pyTruthy msg.decision_type) then
    { confirmations := [], logs := [LogLevel.warning], actions := [] }
  else if !(validate_dec msg) then
    { confirmations := [], logs := [LogLevel.warning, LogLevel.warning],
      actions := [] }
  else if !(msg.schema_version == some SUPPORTED_DECISION_SCHEMA_VERSION) then
    { confirmations := [], logs := [LogLevel.warning], actions := [] }
  else if msg.decision_type == some "maintenance_decision" then
    let actionLog :=
      if msg.needs_maintenance then LogLevel.critical else LogLevel.info
    let actions :=
      if msg.needs_maintenance then ["initiate_maintenance"] else []
    let conf := ae_confirmation msg now
    if !(validate_conf conf) then
      { confirmations := [], logs := [actionLog, LogLevel.error],
        actions := actions }
    else
      { confirmations := [conf], logs := [actionLog, LogLevel.info],
        actions := actions }
  else
    { confirmations := [], logs := [LogLevel.warning], actions := [] }

end ActionExecutor

namespace PerformanceMonitor

open SmartFactory

/-- Names bound at module scope in `performance_monitor.py` that the
context-branch of `on_message` can reference.  The imports on lines 9-15 are
`mqtt`, `json`, `time`, `datetime` (only `datetime` out of the `datetime`
module), `logging`, `jsonschema`, `os`; `timedelta` is never imported. -/
def pm_module_names : List String :=
  ["mqtt", "json", "time", "datetime", "logging", "jsonschema", "os",
   "logger", "MQTT_BROKER_HOST", "MQTT_BROKER_PORT",
   "ACTION_CONFIRMATION_TOPIC_PRE", "CONTEXT_TOPIC_PRE",
   "AGENT_DISCOVERY_TOPIC", "AGENT_ID", "ACTION_CONFIRMATION_SCHEMA_PATH",
   "CONTEXT_SCHEMA_PATH", "AGENT_HEARTBEAT_SCHEMA_PATH",
   "action_confirmation_schema", "context_schema", "agent_heartbeat_schema",
   "recent_contexts", "load_schemas", "validate_message", "on_connect",
   "on_message", "main"]

/-- Per-entity slice of `recent_contexts`: an insertion-ordered map from
`context_id` to the stored context message timestamp (the only field the
pruning loop reads). -/
abbrev CtxIndex := List (String × Int)

/-- The whole `recent_contexts` store, keyed by `machine_id`. -/
abbrev SinkState := List (String × CtxIndex)

/-- One inbound context message as the sink's context branch reads it. -/
structure CtxStoredIn where
  machine_id : String
  context_id : String
  timestamp : Int
  deriving Repr

/-- The pruning loop
`for cid, ctx in list(...): if datetime.fromisoformat(..) < datetime.now() - timedelta(minutes=5): del ...`.
On a non-empty dict the first iteration evaluates the name `timedelta`,
which is unbound in this module, so the loop raises `NameError` before any
deletion; were the name bound, the loop would delete every entry whose
timestamp is older than `now - 300` seconds. -/
def pm_prune (d : CtxIndex) (now : Int) : Except PyErr CtxIndex :=
  match d with
  | [] => Except.ok []
  | _ :: _ =>
    if "timedelta" ∈ pm_module_names then
      Except.ok (d.filter (fun e => !(e.2 < now - 300)))
    else Except.error PyErr.nameError

/-- Shallow embedding of the `context/machine_status/` branch of
`performance_monitor.on_message`: inbound context-schema validation
(abstract predicate), insertion into `recent_contexts[machine_id]`
(creating the inner dict on first sight), then the pruning loop.  A
`NameError` escaping the loop is caught by the handler's generic
`except Exception`, which only logs, so the state keeps the un-pruned
dict that was already mutated in place. -/
def pm_on_context (validate_ctx : CtxStoredIn → Bool) (st : SinkState)
    (msg : CtxStoredIn) (now : Int) : SinkState :=
  if !(validate_ctx msg) then st
  else
    let d := (st.lookup msg.machine_id).getD []
    let d1 := dictSet d msg.context_id msg.timestamp
    match pm_prune d1 now with
    | Except.ok d2 => dictSet st msg.machine_id d2
    | Except.error _ => dictSet st msg.machine_id d1

end PerformanceMonitor

section ConcreteInputs

open SmartFactory ContextProcessor PredictiveMaintenanceAgent ActionExecutor
open PerformanceMonitor

/-- Helper building a reading for machine CNC001 with status running. -/
def mkReading (ts : Int) (t v p : Rat) : Reading :=
  { machine_id := "CNC001", timestamp := ts, temperature_c := t,
    vibration_g := v, power_kw := p, status := "running" }

/-- Readings of a short sorted trace used to exercise the window query. -/
def c5r1 : Reading := mkReading 0 20 1 5

/-- Second reading of the window-query trace, inside the queried window. -/
def c5r2 : Reading := mkReading 10 21 1 5

/-- A reading whose temperature sits exactly on the 70-degree threshold. -/
def rdTemp70 : Reading := mkReading 0 70 0 0

/-- A reading whose temperature average rounds down to 70.00 in the payload
while still exceeding the threshold before rounding. -/
def rdTemp70004 : Reading := mkReading 0 70.004 0 0

/-- A reading just above the temperature threshold. -/
def rdTemp7001 : Reading := mkReading 0 70.01 0 0

/-- A reading whose vibration sits exactly on the 3.0 g threshold. -/
def rdVib3 : Reading := mkReading 0 20 3 0

/-- A reading just above the vibration threshold. -/
def rdVib301 : Reading := mkReading 0 20 3.01 0

/-- A second over-threshold-before-rounding reading, for the rounding claim. -/
def rdTemp70002 : Reading := mkReading 0 70.002 0 0

/-- Context-payload features of a healthy machine. -/
def c2feat : ContextPayload :=
  { machine_id := "CNC001", current_status := "running",
    avg_temperature_c_5min := 45, max_vibration_g_1min := 1,
    power_consumption_avg_10min := 25, is_anomaly_detected := false }

/-- An inbound context message carrying the stale schema version 1.0. -/
def c2msg : CtxMsgIn :=
  { machine_id := some "CNC001", schema_version := some "1.0",
    features := c2feat }

/-- An inbound raw message whose machine_id decoded to the empty string. -/
def c9msg : RawMsg :=
  { payload_decodes := true, machine_id := some "", reading := mkReading 0 20 1 5 }

/-- A schema-valid, version-matching decision of an unknown type. -/
def c6msg : DecisionMsgIn :=
  { decision_type := some "shutdown_decision", machine_id := some "CNC001",
    schema_version := some "1.0.0", decision_id := "d-001",
    needs_maintenance := true }

/-- An accepted maintenance decision asking for action. -/
def c7msg : DecisionMsgIn :=
  { decision_type := some "maintenance_decision", machine_id := some "CNC001",
    schema_version := some "1.0.0", decision_id := "d-002",
    needs_maintenance := true }

/-- Sink state holding one stored context far older than the 5-minute
retention horizon. -/
def c3state : SinkState := [("CNC001", [("ctx-old", 0)])]

/-- A fresh context message for the same machine arriving at t = 900. -/
def c3msg : CtxStoredIn :=
  { machine_id := "CNC001", context_id := "ctx-new", timestamp := 900 }

end ConcreteInputs

section GeneralLemmas

open SmartFactory ContextProcessor

/-- The guarded average never raises: it returns exactly the pure value. -/
theorem avgOrZero_eq_listAvg (l : List Rat) :
    avgOrZero l = Except.ok (listAvg l) := by
  cases l with
  | nil => rfl
  | cons x xs =>
    have hne : ((xs.length : Rat) + 1) ≠ 0 := by positivity
    simp [avgOrZero, listAvg, pyDivide, hne]

/-- The guarded maximum never raises: it returns exactly the pure value. -/
theorem maxOrZero_eq_listMax (l : List Rat) :
    maxOrZero l = Except.ok (listMax l) := by
  cases l with
  | nil => rfl
  | cons x xs => rfl

end GeneralLemmas

section ClaimC4

open SmartFactory ContextProcessor

/-- C4: for every entity buffer and window duration, the average and maximum
aggregates over the corresponding time window never raise (the division and
the empty-sequence `max` are guarded by the emptiness check) and return the
sentinel 0 on the empty window. -/
theorem aggregate_empty_window_returns_sentinel (buf : List Reading)
    (now dur : Int) :
    (∃ q, avgOrZero ((windowFilter buf now dur).map
        (fun d => d.temperature_c)) = Except.ok q) ∧
    (∃ q, maxOrZero ((windowFilter buf now dur).map
        (fun d => d.vibration_g)) = Except.ok q) ∧
    avgOrZero ((windowFilter [] now dur).map
        (fun d => d.temperature_c)) = Except.ok 0 ∧
    maxOrZero ((windowFilter [] now dur).map
        (fun d => d.vibration_g)) = Except.ok 0 :=
  ⟨⟨_, avgOrZero_eq_listAvg _⟩, ⟨_, maxOrZero_eq_listMax _⟩, rfl, rfl⟩

end ClaimC4

section ClaimC5

open SmartFactory ContextProcessor

/-- C5: for a buffer appended in non-decreasing timestamp order, the window
query returns exactly the subsequence of buffered readings with timestamp
strictly greater than `now - dur`, in the original order, and the empty list
(not an error) when nothing matches. -/
theorem window_query_returns_exact_subsequence (buf : List Reading)
    (now dur : Int)
    (hsorted : buf.Pairwise (fun a b => a.timestamp ≤ b.timestamp)) :
    (windowFilter buf now dur).Sublist buf ∧
    (∀ r, r ∈ windowFilter buf now dur ↔ r ∈ buf ∧ now - dur < r.timestamp) ∧
    ((∀ r ∈ buf, ¬(now - dur < r.timestamp)) → windowFilter buf now dur = []) := by
  refine ⟨List.filter_sublist _, ?_, ?_⟩
  · intro r
    simp [windowFilter, List.mem_filter]
  · intro h
    exact List.filter_eq_nil_iff.mpr (fun a ha => by simpa using h a ha)

/-- Witness for C5 on a concrete two-reading sorted buffer. -/
theorem window_query_returns_exact_subsequence_witness :
    [c5r1, c5r2].Pairwise (fun a b => a.timestamp ≤ b.timestamp) ∧
    ((windowFilter [c5r1, c5r2] 10 5).Sublist [c5r1, c5r2] ∧
     (∀ r, r ∈ windowFilter [c5r1, c5r2] 10 5 ↔
        r ∈ [c5r1, c5r2] ∧ 10 - 5 < r.timestamp) ∧
     ((∀ r ∈ [c5r1, c5r2], ¬(10 - 5 < r.timestamp)) →
        windowFilter [c5r1, c5r2] 10 5 = [])) := by
  have hs : [c5r1, c5r2].Pairwise (fun a b => a.timestamp ≤ b.timestamp) := by
    simp [c5r1, c5r2, mkReading]
  exact ⟨hs, window_query_returns_exact_subsequence [c5r1, c5r2] 10 5 hs⟩

end ClaimC5

section ClaimC2

open SmartFactory PredictiveMaintenanceAgent

/-- C2: an inbound context message whose schema_version is not string-equal
to the single supported version is dropped by the decision router: no
decision message is published (the handler mutates no other state, so its
observable effect is empty); the check is exact string equality. -/
theorem version_mismatch_drops_context (validate_ctx : CtxMsgIn → Bool)
    (validate_dec : DecisionMessage → Bool)
    (predict : ContextProcessor.ContextPayload → Bool × Rat)
    (msg : CtxMsgIn) (now : Int)
    (h : msg.schema_version ≠ some SUPPORTED_CONTEXT_SCHEMA_VERSION) :
    pm_on_message validate_ctx validate_dec predict msg now = [] := by
  have hb : (msg.schema_version == some SUPPORTED_CONTEXT_SCHEMA_VERSION)
      = false := by
    simp only [beq_eq_false_iff_ne]
    exact h
  unfold pm_on_message
  rw [hb]
  simp

/-- Witness for C2 on a context message versioned 1.0. -/
theorem version_mismatch_drops_context_witness :
    c2msg.schema_version ≠ some SUPPORTED_CONTEXT_SCHEMA_VERSION ∧
    pm_on_message (fun _ => true) (fun _ => true) (fun _ => (true, 1))
      c2msg 0 = [] := by
  refine ⟨by decide, ?_⟩
  exact version_mismatch_drops_context _ _ _ c2msg 0 (by decide)

end ClaimC2

section ClaimC9

open SmartFactory ContextProcessor

/-- C9: an inbound raw message that fails JSON decoding, lacks a truthy
machine_id (the empty string counts as missing), or fails raw-schema
validation leaves the buffer map completely unchanged and publishes
nothing: the buffer append happens only after all three gates pass. -/
theorem inbound_failure_leaves_buffers_unchanged
    (validate_raw : Reading → Bool) (validate_ctx : ContextMessage → Bool)
    (buffers : Buffers) (msg : RawMsg) (now : Int)
    (h : msg.payload_decodes = false ∨ pyTruthy msg.machine_id = false ∨
         validate_raw msg.reading = false) :
    cp_on_message validate_raw validate_ctx buffers msg now = (buffers, []) := by
  unfold cp_on_message
  rcases h with h | h | h
  · simp [h]
  · cases hd : msg.payload_decodes <;> simp [h, hd]
  · cases hd : msg.payload_decodes <;> cases ht : pyTruthy msg.machine_id <;>
      simp [h, hd, ht]

/-- Witness for C9 on a decoded message whose machine_id is the empty
string. -/
theorem inbound_failure_leaves_buffers_unchanged_witness :
    (c9msg.payload_decodes = false ∨ pyTruthy c9msg.machine_id = false ∨
      (fun _ => true : Reading → Bool) c9msg.reading = false) ∧
    cp_on_message (fun _ => true) (fun _ => true) [] c9msg 0 = ([], []) := by
  refine ⟨Or.inr (Or.inl (by decide)), ?_⟩
  exact inbound_failure_leaves_buffers_unchanged _ _ [] c9msg 0
    (Or.inr (Or.inl (by decide)))

end ClaimC9

section ClaimC6

open SmartFactory ActionExecutor

/-- C6: a decision message that reaches the dispatcher's type dispatch (its
identity fields are present, it passes inbound schema validation and the
exact version check) but whose decision_type is outside the supported
enumerated set produces zero confirmations, exactly one warning-level log
event, and no simulated action. -/
theorem unknown_decision_type_produces_one_warning
    (validate_dec : DecisionMsgIn → Bool)
    (validate_conf : ConfirmationMessage → Bool) (msg : DecisionMsgIn)
    (now : Int)
    (hmid : pyTruthy msg.machine_id = true)
    (htype : pyTruthy msg.decision_type = true)
    (hval : validate_dec msg = true)
    (hver : msg.schema_version = some SUPPORTED_DECISION_SCHEMA_VERSION)
    (hunk : msg.decision_type ≠ some "maintenance_decision") :
    (ae_on_message validate_dec validate_conf msg now).confirmations = [] ∧
    (ae_on_message validate_dec validate_conf msg now).logs =
      [LogLevel.warning] ∧
    (ae_on_message validate_dec validate_conf msg now).actions = [] := by
  have hb : (msg.decision_type == some "maintenance_decision") = false := by
    simp only [beq_eq_false_iff_ne]
    exact hunk
  refine ⟨?_, ?_, ?_⟩ <;> simp [ae_on_message, hmid, htype, hval, hver, hb]

/-- Witness for C6 on a schema-valid, version-matching decision whose type
is shutdown_decision. -/
theorem unknown_decision_type_produces_one_warning_witness :
    pyTruthy c6msg.machine_id = true ∧
    pyTruthy c6msg.decision_type = true ∧
    (fun _ => true : DecisionMsgIn → Bool) c6msg = true ∧
    c6msg.schema_version = some SUPPORTED_DECISION_SCHEMA_VERSION ∧
    c6msg.decision_type ≠ some "maintenance_decision" ∧
    ((ae_on_message (fun _ => true) (fun _ => true) c6msg 0).confirmations
        = [] ∧
     (ae_on_message (fun _ => true) (fun _ => true) c6msg 0).logs =
        [LogLevel.warning] ∧
     (ae_on_message (fun _ => true) (fun _ => true) c6msg 0).actions = []) := by
  refine ⟨by decide, by decide, rfl, by decide, by decide, ?_⟩
  exact unknown_decision_type_produces_one_warning (fun _ => true)
    (fun _ => true) c6msg 0 (by decide) (by decide) rfl (by decide) (by decide)

end ClaimC6

section ClaimC7

open SmartFactory ActionExecutor

/-- C7 counterexample: for a concrete accepted maintenance decision with
needs_maintenance true, the single published confirmation carries
action_taken "maintenance_initiated", not the string "initiated" the claim
names. -/
theorem confirmation_action_taken_literal_counterexample :
    ((ae_on_message (fun _ => true) (fun _ => true) c7msg 0).confirmations.map
        (fun c => c.payload.action_taken)) = ["maintenance_initiated"] ∧
    "maintenance_initiated" ≠ "initiated" := by
  constructor
  · rfl
  · decide

/-- C7 (amended): every accepted maintenance decision yields exactly one
confirmation whose action_taken is "maintenance_initiated" when
needs_maintenance is true and "no_action_taken" when it is false, with
status "success". -/
theorem accepted_decision_confirmation_mapping
    (validate_dec : DecisionMsgIn → Bool)
    (validate_conf : ConfirmationMessage → Bool) (msg : DecisionMsgIn)
    (now : Int)
    (hmid : pyTruthy msg.machine_id = true)
    (hval : validate_dec msg = true)
    (hver : msg.schema_version = some SUPPORTED_DECISION_SCHEMA_VERSION)
    (htm : msg.decision_type = some "maintenance_decision")
    (hconf : validate_conf (ae_confirmation msg now) = true) :
    (ae_on_message validate_dec validate_conf msg now).confirmations =
      [ae_confirmation msg now] ∧
    (ae_confirmation msg now).payload.action_taken =
      (if msg.needs_maintenance then "maintenance_initiated"
       else "no_action_taken") ∧
    (ae_confirmation msg now).payload.status = "success" := by
  have htype : pyTruthy msg.decision_type = true := by rw [htm]; rfl
  have hb : (msg.decision_type == some "maintenance_decision") = true := by
    rw [htm]; rfl
  refine ⟨?_, rfl, rfl⟩
  simp [ae_on_message, hmid, htype, hval, hver, hb, hconf]

/-- Witness for the amended C7 on a concrete accepted decision. -/
theorem accepted_decision_confirmation_mapping_witness :
    pyTruthy c7msg.machine_id = true ∧
    (fun _ => true : DecisionMsgIn → Bool) c7msg = true ∧
    c7msg.schema_version = some SUPPORTED_DECISION_SCHEMA_VERSION ∧
    c7msg.decision_type = some "maintenance_decision" ∧
    (fun _ => true : ConfirmationMessage → Bool) (ae_confirmation c7msg 0)
      = true ∧
    ((ae_on_message (fun _ => true) (fun _ => true) c7msg 0).confirmations =
        [ae_confirmation c7msg 0] ∧
     (ae_confirmation c7msg 0).payload.action_taken =
       (if c7msg.needs_maintenance then "maintenance_initiated"
        else "no_action_taken") ∧
     (ae_confirmation c7msg 0).payload.status = "success") := by
  refine ⟨by decide, rfl, by decide, by decide, rfl, ?_⟩
  exact accepted_decision_confirmation_mapping (fun _ => true) (fun _ => true)
    c7msg 0 (by decide) rfl (by decide) (by decide) rfl

end ClaimC7

section ClaimC1

open SmartFactory ContextProcessor

/-- C1 counterexample: two single-reading buffers (temperatures 70 and
70.004) publish identical aggregate pairs (70.0, 0.0) yet opposite anomaly
flags, so the flag is not a function of the aggregates as they appear in the
published payload, and a payload showing avg_temperature 70.0 can carry a
true flag. -/
theorem anomaly_not_function_of_published_payload :
    (process_raw_data [] "CNC001" rdTemp70 0).2.payload.avg_temperature_c_5min
      = (process_raw_data [] "CNC001" rdTemp70004 0).2.payload.avg_temperature_c_5min ∧
    (process_raw_data [] "CNC001" rdTemp70 0).2.payload.max_vibration_g_1min
      = (process_raw_data [] "CNC001" rdTemp70004 0).2.payload.max_vibration_g_1min ∧
    (process_raw_data [] "CNC001" rdTemp70 0).2.payload.is_anomaly_detected
      = false ∧
    (process_raw_data [] "CNC001" rdTemp70004 0).2.payload.is_anomaly_detected
      = true ∧
    (process_raw_data [] "CNC001" rdTemp70004 0).2.payload.avg_temperature_c_5min
      = 70 := by
  refine ⟨?_, ?_, ?_, ?_, ?_⟩ <;>
    simp [process_raw_data, windowFilter, dequeAppend, DEQUE_MAXLEN, dictSet,
      listAvg, listSum, listMax, round2, roundHalfEven, rdTemp70, rdTemp70004,
      mkReading] <;>
    norm_num [Int.fract]

/-- C1 (amended): the anomaly flag equals the disjunction
(unrounded avg_temp_5min > 70) OR (unrounded max_vib_1min > 3.0) of the
aggregates computed from the buffer before the payload rounding; on the
unrounded aggregates the boundaries hold: 70.0 gives false, 70.01 gives
true, 3.0 gives false, 3.01 gives true. -/
theorem anomaly_disjunction_of_unrounded_aggregates (buffers : Buffers)
    (machine_id : String) (data : Reading) (now : Int) :
    ((process_raw_data buffers machine_id data now).2.payload.is_anomaly_detected
        = (decide (70 < avg5Unrounded (bufferAfterAppend buffers machine_id data) now) ||
           decide (3 < max1Unrounded (bufferAfterAppend buffers machine_id data) now))) ∧
    (process_raw_data [] "CNC001" rdTemp70 0).2.payload.is_anomaly_detected
      = false ∧
    (process_raw_data [] "CNC001" rdTemp7001 0).2.payload.is_anomaly_detected
      = true ∧
    (process_raw_data [] "CNC001" rdVib3 0).2.payload.is_anomaly_detected
      = false ∧
    (process_raw_data [] "CNC001" rdVib301 0).2.payload.is_anomaly_detected
      = true := by
  refine ⟨rfl, ?_, ?_, ?_, ?_⟩ <;>
    simp [process_raw_data, windowFilter, dequeAppend, DEQUE_MAXLEN, dictSet,
      listAvg, listSum, listMax, round2, roundHalfEven, rdTemp70, rdTemp7001,
      rdVib3, rdVib301, mkReading] <;>
    norm_num [Int.fract]

end ClaimC1

section ClaimC10

open SmartFactory ContextProcessor

/-- C10: the three published payload aggregates are the two-decimal
roundings of the unrounded aggregates while the anomaly flag is computed
from the unrounded values, and consequently a concrete buffer (one reading
at 70.002 degrees) publishes avg_temperature_c_5min = 70.0 together with
is_anomaly_detected = true. -/
theorem payload_rounding_and_anomaly_order (buffers : Buffers)
    (machine_id : String) (data : Reading) (now : Int) :
    ((process_raw_data buffers machine_id data now).2.payload.avg_temperature_c_5min
        = round2 (avg5Unrounded (bufferAfterAppend buffers machine_id data) now) ∧
     (process_raw_data buffers machine_id data now).2.payload.max_vibration_g_1min
        = round2 (max1Unrounded (bufferAfterAppend buffers machine_id data) now) ∧
     (process_raw_data buffers machine_id data now).2.payload.power_consumption_avg_10min
        = round2 (avg10Unrounded (bufferAfterAppend buffers machine_id data) now) ∧
     (process_raw_data buffers machine_id data now).2.payload.is_anomaly_detected
        = (decide (70 < avg5Unrounded (bufferAfterAppend buffers machine_id data) now) ||
           decide (3 < max1Unrounded (bufferAfterAppend buffers machine_id data) now))) ∧
    ((process_raw_data [] "CNC001" rdTemp70002 0).2.payload.avg_temperature_c_5min
        = 70 ∧
     (process_raw_data [] "CNC001" rdTemp70002 0).2.payload.is_anomaly_detected
        = true) := by
  refine ⟨⟨rfl, rfl, rfl, rfl⟩, ?_, ?_⟩ <;>
    simp [process_raw_data, windowFilter, dequeAppend, DEQUE_MAXLEN, dictSet,
      listAvg, listSum, listMax, round2, roundHalfEven, rdTemp70002,
      mkReading] <;>
    norm_num [Int.fract]

end ClaimC10

section ClaimC3

open SmartFactory PerformanceMonitor

/-- C3 (code behavior at the failing input): inserting a fresh context for
CNC001 at t = 900 with now = 1000 into a state holding a context from t = 0
leaves the stale entry in place — the pruning loop raises NameError because
`timedelta` is never imported in performance_monitor.py, so no entry is ever
removed even though the stale entry is far older than the 5-minute
horizon. -/
theorem stale_entry_survives_insert :
    pm_on_context (fun _ => true) c3state c3msg 1000 =
      [("CNC001", [("ctx-old", 0), ("ctx-new", 900)])] ∧
    pm_prune [("ctx-old", (0 : Int)), ("ctx-new", 900)] 1000 =
      Except.error PyErr.nameError ∧
    ((0 : Int) < 1000 - 300) := by
  refine ⟨rfl, rfl, by decide⟩

end ClaimC3

section ClaimC8

open SmartFactory ContextProcessor

/-- Appending to a deque below capacity keeps every entry and appends at the
right end. -/
theorem dequeAppend_lt (cap : Nat) (buf : List Reading) (r : Reading)
    (h : buf.length < cap) : dequeAppend cap buf r = buf ++ [r] := by
  unfold dequeAppend
  have hc : ¬ cap < (buf ++ [r]).length := by
    simp
    omega
  rw [if_neg hc]

/-- Appending to a full deque drops exactly the oldest (leftmost) entry. -/
theorem dequeAppend_full (cap : Nat) (buf : List Reading) (r : Reading)
    (h : buf.length = cap) (hpos : 0 < cap) :
    dequeAppend cap buf r = buf.tail ++ [r] := by
  unfold dequeAppend
  have hc : cap < (buf ++ [r]).length := by
    simp
    omega
  have h1 : (buf ++ [r]).length - cap = 1 := by
    simp
    omega
  rw [if_pos hc, h1, List.drop_append_of_le_length (by omega), List.drop_one]

/-- The appended reading is always the last entry of the new deque. -/
theorem dequeAppend_getLast (cap : Nat) (buf : List Reading) (r : Reading)
    (hpos : 0 < cap) : (dequeAppend cap buf r).getLast? = some r := by
  unfold dequeAppend
  by_cases hc : cap < (buf ++ [r]).length
  · rw [if_pos hc]
    have hk : (buf ++ [r]).length - cap ≤ buf.length := by
      simp
      omega
    rw [List.drop_append_of_le_length hk, List.getLast?_concat]
  · rw [if_neg hc, List.getLast?_concat]

/-- Invariant preservation along a fold of bounded appends: starting from a
sorted buffer within capacity whose entries precede every remaining arrival,
processing a sorted arrival sequence keeps the buffer sorted and within
capacity. -/
theorem foldl_dequeAppend_invariant (rs : List Reading) :
    ∀ buf : List Reading,
      buf.Pairwise (fun a b => a.timestamp ≤ b.timestamp) →
      buf.length ≤ DEQUE_MAXLEN →
      rs.Pairwise (fun a b => a.timestamp ≤ b.timestamp) →
      (∀ x ∈ buf, ∀ y ∈ rs, x.timestamp ≤ y.timestamp) →
      (rs.foldl (dequeAppend DEQUE_MAXLEN) buf).Pairwise
        (fun a b => a.timestamp ≤ b.timestamp) ∧
      (rs.foldl (dequeAppend DEQUE_MAXLEN) buf).length ≤ DEQUE_MAXLEN := by
  induction rs with
  | nil =>
    intro buf h1 h2 _ _
    exact ⟨h1, h2⟩
  | cons r rs ih =>
    intro buf h1 h2 h3 h4
    simp only [List.foldl_cons]
    have hsub : (dequeAppend DEQUE_MAXLEN buf r).Sublist (buf ++ [r]) := by
      unfold dequeAppend
      by_cases hc : DEQUE_MAXLEN < (buf ++ [r]).length
      · rw [if_pos hc]
        exact List.drop_sublist _ _
      · rw [if_neg hc]
    have hpw : (buf ++ [r]).Pairwise (fun a b => a.timestamp ≤ b.timestamp) := by
      rw [List.pairwise_append]
      refine ⟨h1, List.pairwise_singleton _ _, ?_⟩
      intro a ha b hb
      rw [List.mem_singleton] at hb
      rw [hb]
      exact h4 a ha r (List.mem_cons_self r rs)
    have hnew1 : (dequeAppend DEQUE_MAXLEN buf r).Pairwise
        (fun a b => a.timestamp ≤ b.timestamp) :=
      List.Pairwise.sublist hsub hpw
    have hlen : (dequeAppend DEQUE_MAXLEN buf r).length ≤ DEQUE_MAXLEN := by
      unfold dequeAppend
      by_cases hc : DEQUE_MAXLEN < (buf ++ [r]).length
      · rw [if_pos hc, List.length_drop]
        omega
      · rw [if_neg hc]
        simp at hc
        simp
        omega
    have h3n := (List.pairwise_cons.mp h3).2
    have h4n : ∀ x ∈ dequeAppend DEQUE_MAXLEN buf r, ∀ y ∈ rs,
        x.timestamp ≤ y.timestamp := by
      intro x hx y hy
      have hx2 : x ∈ buf ++ [r] := hsub.mem hx
      rcases List.mem_append.mp hx2 with hxb | hxr
      · exact h4 x hxb y (List.mem_cons_of_mem r hy)
      · rw [List.mem_singleton] at hxr
        subst hxr
        exact (List.pairwise_cons.mp h3).1 y hy
    exact ih (dequeAppend DEQUE_MAXLEN buf r) hnew1 hlen h3n h4n

/-- C8: under non-decreasing arrival order, every buffer state reachable by
the bounded append is sorted non-decreasing by timestamp and holds at most
300 entries; each insertion appends at the right end (it is last in the new
state, and below capacity nothing else changes), and at capacity exactly the
oldest entry is evicted. -/
theorem windowed_buffer_invariants (rs : List Reading)
    (h : rs.Pairwise (fun a b => a.timestamp ≤ b.timestamp)) :
    (buildBuffer rs).Pairwise (fun a b => a.timestamp ≤ b.timestamp) ∧
    (buildBuffer rs).length ≤ DEQUE_MAXLEN ∧
    (∀ (buf : List Reading) (r : Reading), buf.length < DEQUE_MAXLEN →
        dequeAppend DEQUE_MAXLEN buf r = buf ++ [r]) ∧
    (∀ (buf : List Reading) (r : Reading), buf.length = DEQUE_MAXLEN →
        dequeAppend DEQUE_MAXLEN buf r = buf.tail ++ [r]) ∧
    (∀ (buf : List Reading) (r : Reading),
        (dequeAppend DEQUE_MAXLEN buf r).getLast? = some r) := by
  have hinv := foldl_dequeAppend_invariant rs [] (List.Pairwise.nil)
    (by simp) h (by simp)
  refine ⟨hinv.1, hinv.2, ?_, ?_, ?_⟩
  · intro buf r hl
    exact dequeAppend_lt _ buf r hl
  · intro buf r hl
    exact dequeAppend_full _ buf r hl (by norm_num [DEQUE_MAXLEN])
  · intro buf r
    exact dequeAppend_getLast _ buf r (by norm_num [DEQUE_MAXLEN])

/-- Witness for C8 on a concrete sorted two-reading arrival sequence. -/
theorem windowed_buffer_invariants_witness :
    [mkReading 0 20 1 5, mkReading 10 21 1 5].Pairwise
      (fun a b => a.timestamp ≤ b.timestamp) ∧
    ((buildBuffer [mkReading 0 20 1 5, mkReading 10 21 1 5]).Pairwise
        (fun a b => a.timestamp ≤ b.timestamp) ∧
     (buildBuffer [mkReading 0 20 1 5, mkReading 10 21 1 5]).length ≤
        DEQUE_MAXLEN ∧
     (∀ (buf : List Reading) (r : Reading), buf.length < DEQUE_MAXLEN →
        dequeAppend DEQUE_MAXLEN buf r = buf ++ [r]) ∧
     (∀ (buf : List Reading) (r : Reading), buf.length = DEQUE_MAXLEN →
        dequeAppend DEQUE_MAXLEN buf r = buf.tail ++ [r]) ∧
     (∀ (buf : List Reading) (r : Reading),
        (dequeAppend DEQUE_MAXLEN buf r).getLast? = some r)) := by
  have hs : [mkReading 0 20 1 5, mkReading 10 21 1 5].Pairwise
      (fun a b => a.timestamp ≤ b.timestamp) := by
    simp [mkReading]
  exact ⟨hs, windowed_buffer_invariants _ hs⟩

end ClaimC8
